import Mathlib

/-!
Verification of the LSM6 accelerometer/gyroscope i2c driver (src/lib.rs).

The driver is embedded shallowly: the generic i2c transport (the
`embedded_hal` `Read`/`Write`/`WriteRead` traits) becomes a record of pure
functions returning `Except ε`, and every driver operation additionally
returns the list of bus transactions it issued, in order, so that claims
about which transactions happen (and in which order) can be stated.
Bytes (`u8`) are `Nat` reduced `% 256` wherever the Rust type system
guarantees a byte; `i16` results are `Int` via a two's-complement
reinterpretation of a 16-bit pattern.
-/

namespace LSM6Driver

/-- Modelled from the spec: the `registers` module (`src/registers.rs`) is
declared by `src/lib.rs` but its file is not present under `src/`; the spec
(§3) names these register constants, and the values used here are the
device's documented register-map addresses.  No claim depends on the
numeric values, only on the constants as distinct names. -/
def registers.WHO_AM_I : Nat := 0x0F

/-- Modelled from the spec: accelerometer control register 1. -/
def registers.CTRL1_XL : Nat := 0x10

/-- Modelled from the spec: gyroscope control register 2. -/
def registers.CTRL2_G : Nat := 0x11

/-- Modelled from the spec: common control register 3. -/
def registers.CTRL3_C : Nat := 0x12

/-- Modelled from the spec: accelerometer control register 9. -/
def registers.CTRL9_XL : Nat := 0x18

/-- Modelled from the spec: common control register 10. -/
def registers.CTRL10_C : Nat := 0x19

/-- Modelled from the spec: status register. -/
def registers.STATUS_REG : Nat := 0x1E

/-- Modelled from the spec: gyroscope X-axis low output byte register. -/
def registers.OUTX_L_G : Nat := 0x22

/-- Modelled from the spec: accelerometer X-axis low output byte register. -/
def registers.OUTX_L_XL : Nat := 0x28

/-- Embeds `const LSM6_SA0_HIGH_ADDRESS: u8 = 0b1101011;` -/
def LSM6_SA0_HIGH_ADDRESS : Nat := 0b1101011

/-- Embeds `const LSM6_SA0_LOW_ADDRESS: u8 = 0b1101010;` -/
def LSM6_SA0_LOW_ADDRESS : Nat := 0b1101010

/-- Embeds `const LSM6_WHO_ID: u8 = 0x69;` -/
def LSM6_WHO_ID : Nat := 0x69

/-- One bus transaction, as recorded by the embedding: either a plain write
of a byte sequence to a 7-bit device address, or a write-then-read where
`buf` is the initial contents of the read buffer handed to the transport. -/
inductive Txn : Type where
  | write (addr : Nat) (data : List Nat) : Txn
  | writeRead (addr : Nat) (data : List Nat) (buf : List Nat) : Txn
deriving DecidableEq, Repr

/-- The device address a transaction is directed at. -/
def Txn.addr : Txn → Nat
  | .write a _ => a
  | .writeRead a _ _ => a

/-- Functional model of an i2c transport (the `embedded_hal` blocking
`Write` + `WriteRead` traits): `write` sends bytes to an address;
`writeRead` sends bytes and returns the final contents of the read buffer,
whose initial contents are the third argument. -/
structure Bus (ε : Type) : Type where
  write : Nat → List Nat → Except ε Unit
  writeRead : Nat → List Nat → List Nat → Except ε (List Nat)

/-- Two's-complement reinterpretation of a 16-bit pattern as an `i16`. -/
def toI16 (n : Nat) : Int :=
  if n % 65536 < 32768 then ((n % 65536 : Nat) : Int)
  else ((n % 65536 : Nat) : Int) - 65536

/-- The byte at index `i` of a response buffer (a `u8`, hence `% 256`). -/
def byteAt (vals : List Nat) (i : Nat) : Nat := vals.getD i 0 % 256

/-- Embeds `fn test_lsm6_addr<I: WriteRead>(i2c: &mut I, address: u8) ->
Result<bool, I::Error>`: probe `address` by selecting `WHO_AM_I` and
reading one byte into a buffer initialised to `LSM6_WHO_ID + 1`; the probe
succeeds iff the byte read back equals `LSM6_WHO_ID`. -/
def test_lsm6_addr {ε : Type} (b : Bus ε) (address : Nat) :
    List Txn × Except ε Bool :=
  match b.writeRead address [registers.WHO_AM_I] [LSM6_WHO_ID + 1] with
  | .error e => ([Txn.writeRead address [registers.WHO_AM_I] [LSM6_WHO_ID + 1]], .error e)
  | .ok resp => ([Txn.writeRead address [registers.WHO_AM_I] [LSM6_WHO_ID + 1]],
      .ok (decide (resp.headD (LSM6_WHO_ID + 1) % 256 = LSM6_WHO_ID)))

/-- Embeds `pub struct LSM6<E, I> { address: u8, i2c: I }`: the transport is passed
to every operation in this functional embedding, so only the resolved
address is state. -/
structure LSM6 : Type where
  address : Nat
deriving DecidableEq, Repr

/-- Embeds `pub fn set_register(&mut self, reg: u8, value: u8) -> Result<(), E>`:
write the two bytes `[reg, value]` to the bound address. -/
def LSM6.set_register {ε : Type} (self : LSM6) (b : Bus ε) (reg value : Nat) :
    List Txn × Except ε Unit :=
  ([Txn.write self.address [reg, value]], b.write self.address [reg, value])

/-- Embeds `pub fn read_register(&mut self, reg: u8) -> Result<u8, E>`: select
`reg`, read one byte into a buffer initialised to `[0]`, return that byte. -/
def LSM6.read_register {ε : Type} (self : LSM6) (b : Bus ε) (reg : Nat) :
    List Txn × Except ε Nat :=
  match b.writeRead self.address [reg] [0] with
  | .error e => ([Txn.writeRead self.address [reg] [0]], .error e)
  | .ok resp => ([Txn.writeRead self.address [reg] [0]], .ok (resp.headD 0 % 256))

/-- Embeds `pub fn new(mut i2c: I) -> Result<Option<Self>, E>`: probe the high
address, then (only if its identity byte mismatched) the low address; on a
match, construct the driver and write 4 into `CTRL3_C`; if neither matches,
return `Ok(None)`; propagate any transport error. -/
def LSM6.new {ε : Type} (b : Bus ε) : List Txn × Except ε (Option LSM6) :=
  match test_lsm6_addr b LSM6_SA0_HIGH_ADDRESS with
  | (t1, .error e) => (t1, .error e)
  | (t1, .ok true) =>
      match (LSM6.mk LSM6_SA0_HIGH_ADDRESS).set_register b registers.CTRL3_C 4 with
      | (t2, .error e) => (t1 ++ t2, .error e)
      | (t2, .ok _) => (t1 ++ t2, .ok (some (LSM6.mk LSM6_SA0_HIGH_ADDRESS)))
  | (t1, .ok false) =>
      match test_lsm6_addr b LSM6_SA0_LOW_ADDRESS with
      | (t2, .error e) => (t1 ++ t2, .error e)
      | (t2, .ok true) =>
          match (LSM6.mk LSM6_SA0_LOW_ADDRESS).set_register b registers.CTRL3_C 4 with
          | (t3, .error e) => (t1 ++ t2 ++ t3, .error e)
          | (t3, .ok _) => (t1 ++ t2 ++ t3, .ok (some (LSM6.mk LSM6_SA0_LOW_ADDRESS)))
      | (t2, .ok false) => (t1 ++ t2, .ok none)

/-- Embeds `pub enum AccelerometerMode`: the accelerometer's sampling-rate/power
profiles. -/
inductive AccelerometerMode : Type where
  | PowerDown
  | LowPower13Hz
  | LowPower26Hz
  | LowPower52Hz
  | Normal104Hz
  | Normal208Hz
  | HighPerformance416Hz
  | HighPerformance833Hz
  | HighPerformance1660Hz
  | HighPerformance3330Hz
  | HighPerformance6660Hz
deriving DecidableEq, Repr

/-- Embeds `fn to_bitcode(self) -> u8` for `AccelerometerMode`. -/
def AccelerometerMode.to_bitcode : AccelerometerMode → Nat
  | .PowerDown => 0
  | .LowPower13Hz => 1
  | .LowPower26Hz => 0b10
  | .LowPower52Hz => 0b11
  | .Normal104Hz => 0b100
  | .Normal208Hz => 0b101
  | .HighPerformance416Hz => 0b110
  | .HighPerformance833Hz => 0b111
  | .HighPerformance1660Hz => 0b1000
  | .HighPerformance3330Hz => 0b1001
  | .HighPerformance6660Hz => 0b1010

/-- Embeds `pub enum GyroscopeMode`: the gyroscope's sampling-rate/power
profiles. -/
inductive GyroscopeMode : Type where
  | PowerDown
  | LowPower13Hz
  | LowPower26Hz
  | LowPower52Hz
  | Normal104Hz
  | Normal208Hz
  | HighPerformance416Hz
  | HighPerformance833Hz
  | HighPerformance1660Hz
deriving DecidableEq, Repr

/-- Embeds `fn to_bitcode(self) -> u8` for `GyroscopeMode`. -/
def GyroscopeMode.to_bitcode : GyroscopeMode → Nat
  | .PowerDown => 0
  | .LowPower13Hz => 1
  | .LowPower26Hz => 0b10
  | .LowPower52Hz => 0b11
  | .Normal104Hz => 0b100
  | .Normal208Hz => 0b101
  | .HighPerformance416Hz => 0b110
  | .HighPerformance833Hz => 0b111
  | .HighPerformance1660Hz => 0b1000

/-- Embeds `pub fn set_accel_mode(&mut self, mode) -> Result<(), E>`: overwrite
`CTRL1_XL` with the mode's bitcode shifted into the high nibble (`u8`
shift, hence `% 256`). -/
def LSM6.set_accel_mode {ε : Type} (self : LSM6) (b : Bus ε)
    (mode : AccelerometerMode) : List Txn × Except ε Unit :=
  self.set_register b registers.CTRL1_XL ((mode.to_bitcode <<< 4) % 256)

/-- Embeds `pub fn set_gyro_mode(&mut self, mode) -> Result<(), E>`: overwrite
`CTRL2_G` with the mode's bitcode shifted into the high nibble. -/
def LSM6.set_gyro_mode {ε : Type} (self : LSM6) (b : Bus ε)
    (mode : GyroscopeMode) : List Txn × Except ε Unit :=
  self.set_register b registers.CTRL2_G ((mode.to_bitcode <<< 4) % 256)

/-- Embeds `pub fn set_accel_axes(&mut self, x: bool, y: bool, z: bool)`:
overwrite `CTRL9_XL` with one bit per enabled axis (bits 5, 4, 3). -/
def LSM6.set_accel_axes {ε : Type} (self : LSM6) (b : Bus ε)
    (x y z : Bool) : List Txn × Except ε Unit :=
  self.set_register b registers.CTRL9_XL
    ((if x then 0b100000 else 0) ||| (if y then 0b10000 else 0) |||
      (if z then 0b1000 else 0))

/-- Embeds `pub fn set_gyro_axes(&mut self, x: bool, y: bool, z: bool)`: read the
current `CTRL10_C` value, then write it back with the axis bits (5, 4, 3)
replaced and the low three bits preserved. -/
def LSM6.set_gyro_axes {ε : Type} (self : LSM6) (b : Bus ε)
    (x y z : Bool) : List Txn × Except ε Unit :=
  match self.read_register b registers.CTRL10_C with
  | (t1, .error e) => (t1, .error e)
  | (t1, .ok prev) =>
      match self.set_register b registers.CTRL10_C
          ((if x then 0b100000 else 0) ||| (if y then 0b10000 else 0) |||
            (if z then 0b1000 else 0) ||| (prev &&& 7)) with
      | (t2, r) => (t1 ++ t2, r)

/-- Embeds `fn incremental_read_measurements(&mut self, start_reg: u8) ->
Result<(i16, i16, i16), E>`: one 6-byte read starting at `start_reg` (the
buffer is initialised to six zeros), then each axis is assembled as
`(values[2k+1] as i16) << 8 | values[2k] as i16`. -/
def LSM6.incremental_read_measurements {ε : Type} (self : LSM6) (b : Bus ε)
    (start_reg : Nat) : List Txn × Except ε (Int × Int × Int) :=
  match b.writeRead self.address [start_reg] [0, 0, 0, 0, 0, 0] with
  | .error e => ([Txn.writeRead self.address [start_reg] [0, 0, 0, 0, 0, 0]], .error e)
  | .ok vals => ([Txn.writeRead self.address [start_reg] [0, 0, 0, 0, 0, 0]],
      .ok (toI16 ((byteAt vals 1 <<< 8) ||| byteAt vals 0),
        toI16 ((byteAt vals 3 <<< 8) ||| byteAt vals 2),
        toI16 ((byteAt vals 5 <<< 8) ||| byteAt vals 4)))

/-- Embeds `pub fn read_gyro(&mut self) -> Result<Option<(i16, i16, i16)>, E>`:
read `STATUS_REG`; if bit 1 is clear return `Ok(None)`, otherwise read the
six gyroscope output bytes starting at `OUTX_L_G`. -/
def LSM6.read_gyro {ε : Type} (self : LSM6) (b : Bus ε) :
    List Txn × Except ε (Option (Int × Int × Int)) :=
  match self.read_register b registers.STATUS_REG with
  | (t1, .error e) => (t1, .error e)
  | (t1, .ok s) =>
      if s &&& 0b10 ≠ 0b10 then (t1, .ok none)
      else
        match self.incremental_read_measurements b registers.OUTX_L_G with
        | (t2, .error e) => (t1 ++ t2, .error e)
        | (t2, .ok o) => (t1 ++ t2, .ok (some o))

/-- Embeds `pub fn read_accel(&mut self) -> Result<Option<(i16, i16, i16)>, E>`:
read `STATUS_REG`; if bit 0 is clear return `Ok(None)`, otherwise read the
six accelerometer output bytes starting at `OUTX_L_XL`. -/
def LSM6.read_accel {ε : Type} (self : LSM6) (b : Bus ε) :
    List Txn × Except ε (Option (Int × Int × Int)) :=
  match self.read_register b registers.STATUS_REG with
  | (t1, .error e) => (t1, .error e)
  | (t1, .ok s) =>
      if s &&& 0b1 ≠ 1 then (t1, .ok none)
      else
        match self.incremental_read_measurements b registers.OUTX_L_XL with
        | (t2, .error e) => (t1 ++ t2, .error e)
        | (t2, .ok o) => (t1 ++ t2, .ok (some o))

/-- Embeds `pub fn init_default(&mut self) -> Result<(), E>`: set both sensors to
high-performance 1660 Hz mode. -/
def LSM6.init_default {ε : Type} (self : LSM6) (b : Bus ε) :
    List Txn × Except ε Unit :=
  match self.set_accel_mode b AccelerometerMode.HighPerformance1660Hz with
  | (t1, .error e) => (t1, .error e)
  | (t1, .ok _) =>
      match self.set_gyro_mode b GyroscopeMode.HighPerformance1660Hz with
      | (t2, r) => (t1 ++ t2, r)

/-- Embeds `pub fn full_power_down(&mut self) -> Result<(), E>`: set both sensors
to the power-down code. -/
def LSM6.full_power_down {ε : Type} (self : LSM6) (b : Bus ε) :
    List Txn × Except ε Unit :=
  match self.set_accel_mode b AccelerometerMode.PowerDown with
  | (t1, .error e) => (t1, .error e)
  | (t1, .ok _) =>
      match self.set_gyro_mode b GyroscopeMode.PowerDown with
      | (t2, r) => (t1 ++ t2, r)

/-! Scripted transports used to witness the claim theorems at concrete
inputs.  Each one answers every transaction successfully with a fixed
response chosen by address or by the written byte sequence. -/

/-- A transport with the device present at the high address: the high
address answers the identity probe with `0x69`; reads elsewhere leave the
buffer untouched; writes succeed. -/
def busHighOk : Bus Unit :=
  ⟨fun _ _ => Except.ok (),
   fun a _ buf =>
     if a = LSM6_SA0_HIGH_ADDRESS then Except.ok [LSM6_WHO_ID] else Except.ok buf⟩

/-- A transport with the device present at the low address only: the high
address answers the identity probe with `0x00`, the low address with
`0x69`. -/
def busLowOk : Bus Unit :=
  ⟨fun _ _ => Except.ok (),
   fun a _ _ =>
     if a = LSM6_SA0_LOW_ADDRESS then Except.ok [LSM6_WHO_ID] else Except.ok [0]⟩

/-- A transport with no device present: every identity probe answers
`0x00`. -/
def busAbsent : Bus Unit :=
  ⟨fun _ _ => Except.ok (), fun _ _ _ => Except.ok [0]⟩

/-- A transport whose high address fails with transport error `7`; the low
address would answer `0x00`. -/
def busErrHigh : Bus Nat :=
  ⟨fun _ _ => Except.ok (),
   fun a _ _ =>
     if a = LSM6_SA0_HIGH_ADDRESS then Except.error 7 else Except.ok [0]⟩

/-- A transport whose high address answers `0x00` and whose low address
fails with transport error `9`. -/
def busErrLow : Bus Nat :=
  ⟨fun _ _ => Except.ok (),
   fun a _ _ =>
     if a = LSM6_SA0_LOW_ADDRESS then Except.error 9 else Except.ok [0]⟩

/-- A transport for the measurement-read scenario: `STATUS_REG` reads back
`0x03` (both readiness bits set) and the six output bytes starting at
`OUTX_L_XL` or `OUTX_L_G` read back `[1, 2, 3, 4, 5, 6]`. -/
def busMeas : Bus Unit :=
  ⟨fun _ _ => Except.ok (),
   fun _ w buf =>
     if w = [registers.STATUS_REG] then Except.ok [3]
     else if w = [registers.OUTX_L_XL] then Except.ok [1, 2, 3, 4, 5, 6]
     else if w = [registers.OUTX_L_G] then Except.ok [1, 2, 3, 4, 5, 6]
     else Except.ok buf⟩

/-- A transport whose `STATUS_REG` always reads back `0` (no sample
ready). -/
def busNotReady : Bus Unit :=
  ⟨fun _ _ => Except.ok (), fun _ _ buf =>
    if buf = [0] then Except.ok [0] else Except.ok buf⟩

/-- A transport whose `CTRL10_C` register reads back `0b101`. -/
def busAxes : Bus Unit :=
  ⟨fun _ _ => Except.ok (),
   fun _ w buf =>
     if w = [registers.CTRL10_C] then Except.ok [0b101] else Except.ok buf⟩

/-- A transport whose every read returns the six bytes
`[0x10, 0x90, 1, 2, 3, 4]` — the X axis has its high byte's top bit
set. -/
def busSigned : Bus Unit :=
  ⟨fun _ _ => Except.ok (), fun _ _ _ => Except.ok [0x10, 0x90, 1, 2, 3, 4]⟩

/-- A transport that echoes the byte `0x77` on a read of register `5`. -/
def busEcho : Bus Unit :=
  ⟨fun _ _ => Except.ok (),
   fun _ w buf => if w = [5] then Except.ok [0x77] else Except.ok buf⟩

/-! Helper lemmas about byte assembly. -/

/-- Every element fetched from a list of bytes (default 0) is a byte. -/
theorem getD_lt_256 (vals : List Nat) (h : ∀ v ∈ vals, v < 256) (i : Nat) :
    vals.getD i 0 < 256 := by
  rw [List.getD_eq_getElem?_getD]
  cases hx : vals[i]? with
  | none => simp
  | some v => simpa using h v (List.getElem?_mem hx)

/-- When the elements of `vals` are bytes, `byteAt` is plain list access. -/
theorem byteAt_eq_getD (vals : List Nat) (h : ∀ v ∈ vals, v < 256) (i : Nat) :
    byteAt vals i = vals.getD i 0 :=
  Nat.mod_eq_of_lt (getD_lt_256 vals h i)

/-- Shifting a high byte left by 8 and OR-ing a low byte is the same as
`256 * hi + lo`. -/
theorem shiftLeft_or_byte (hi lo : Nat) (hlo : lo < 256) :
    (hi <<< 8) ||| lo = 256 * hi + lo := by
  have h2 : (2 : Nat) ^ 8 = 256 := by norm_num
  have h := @Nat.mul_add_lt_is_or 8 lo (lt_of_lt_of_eq hlo h2.symm) hi
  rw [Nat.shiftLeft_eq, h2, Nat.mul_comm hi 256, ← h]

/-- The two's-complement reading of an assembled byte pair: it is negative
exactly when the high byte has its top bit set, and its 16-bit pattern
(recovered by `emod 65536`) is `256 * hi + lo`. -/
theorem toI16_assemble (hi lo : Nat) (hhi : hi < 256) (hlo : lo < 256) :
    (toI16 ((hi <<< 8) ||| lo) < 0 ↔ 128 ≤ hi) ∧
    toI16 ((hi <<< 8) ||| lo) % 65536 = 256 * hi + lo := by
  rw [shiftLeft_or_byte hi lo hlo]
  unfold toI16
  split <;> push_cast <;> omega

/-- C1: device discovery probes the high candidate address first via
`WHO_AM_I`: if the high address reads back `0x69`, `new` succeeds bound to
the high address and no transaction in its trace targets the low address;
if the high address reads back any other byte and the low address reads
back `0x69`, `new` succeeds bound to the low address. -/
theorem claim_c1 (ε : Type) :
    (∀ (b : Bus ε) (resp : List Nat),
      b.writeRead LSM6_SA0_HIGH_ADDRESS [registers.WHO_AM_I] [LSM6_WHO_ID + 1] =
          Except.ok resp →
      resp.headD (LSM6_WHO_ID + 1) % 256 = LSM6_WHO_ID →
      b.write LSM6_SA0_HIGH_ADDRESS [registers.CTRL3_C, 4] = Except.ok () →
      (LSM6.new b).2 = Except.ok (some (LSM6.mk LSM6_SA0_HIGH_ADDRESS)) ∧
        ∀ t ∈ (LSM6.new b).1, t.addr ≠ LSM6_SA0_LOW_ADDRESS) ∧
    (∀ (b : Bus ε) (resp1 resp2 : List Nat),
      b.writeRead LSM6_SA0_HIGH_ADDRESS [registers.WHO_AM_I] [LSM6_WHO_ID + 1] =
          Except.ok resp1 →
      resp1.headD (LSM6_WHO_ID + 1) % 256 ≠ LSM6_WHO_ID →
      b.writeRead LSM6_SA0_LOW_ADDRESS [registers.WHO_AM_I] [LSM6_WHO_ID + 1] =
          Except.ok resp2 →
      resp2.headD (LSM6_WHO_ID + 1) % 256 = LSM6_WHO_ID →
      b.write LSM6_SA0_LOW_ADDRESS [registers.CTRL3_C, 4] = Except.ok () →
      (LSM6.new b).2 = Except.ok (some (LSM6.mk LSM6_SA0_LOW_ADDRESS))) := by
  constructor
  · intro b resp hhi hid hw
    have hb := decide_eq_true hid
    rw [List.headD_eq_head?_getD] at hb
    constructor
    · simp [LSM6.new, test_lsm6_addr, LSM6.set_register, hhi, hb, hw]
    · intro t ht
      simp [LSM6.new, test_lsm6_addr, LSM6.set_register, hhi, hb, hw] at ht
      rcases ht with h | h <;> subst h <;>
        simp [Txn.addr, LSM6_SA0_HIGH_ADDRESS, LSM6_SA0_LOW_ADDRESS]
  · intro b resp1 resp2 hhi hid1 hlo hid2 hw
    have hb1 := decide_eq_false hid1
    have hb2 := decide_eq_true hid2
    rw [List.headD_eq_head?_getD] at hb1 hb2
    simp [LSM6.new, test_lsm6_addr, LSM6.set_register, hhi, hb1, hlo, hb2, hw]

/-- Witness for C1: on a transport answering `0x69` at the high address,
`new` binds the high address and touches only it; on a transport answering
`0x00` high and `0x69` low, `new` binds the low address. -/
theorem claim_c1_witness :
    ((LSM6.new busHighOk).2 = Except.ok (some (LSM6.mk LSM6_SA0_HIGH_ADDRESS)) ∧
      ∀ t ∈ (LSM6.new busHighOk).1, t.addr ≠ LSM6_SA0_LOW_ADDRESS) ∧
    (LSM6.new busLowOk).2 = Except.ok (some (LSM6.mk LSM6_SA0_LOW_ADDRESS)) := by
  have h1 := (claim_c1 Unit).1 busHighOk [LSM6_WHO_ID] rfl rfl rfl
  have h2 := (claim_c1 Unit).2 busLowOk [0] [LSM6_WHO_ID] rfl (by decide) rfl rfl rfl
  exact ⟨h1, h2⟩

/-- C2: whenever `new` succeeds in binding an address, its transaction
trace is a sequence of `WHO_AM_I` probes followed by exactly one final
write of `[CTRL3_C, 4]` to the bound address — the configuration write is
the very next transaction after binding, never skipped or reordered. -/
theorem claim_c2 {ε : Type} (b : Bus ε) (drv : LSM6)
    (h : (LSM6.new b).2 = Except.ok (some drv)) :
    ∃ probes, (LSM6.new b).1 =
        probes ++ [Txn.write drv.address [registers.CTRL3_C, 4]] ∧
      ∀ t ∈ probes, ∃ a, t = Txn.writeRead a [registers.WHO_AM_I] [LSM6_WHO_ID + 1] := by
  cases hhi : b.writeRead LSM6_SA0_HIGH_ADDRESS [registers.WHO_AM_I] [LSM6_WHO_ID + 1] with
  | error e => simp [LSM6.new, test_lsm6_addr, hhi] at h
  | ok resp =>
    by_cases hid : resp.head?.getD (LSM6_WHO_ID + 1) % 256 = LSM6_WHO_ID
    · have hb := decide_eq_true hid
      cases hw : b.write LSM6_SA0_HIGH_ADDRESS [registers.CTRL3_C, 4] with
      | error e => simp [LSM6.new, test_lsm6_addr, LSM6.set_register, hhi, hb, hw] at h
      | ok u =>
        have hdrv : drv = LSM6.mk LSM6_SA0_HIGH_ADDRESS := by
          simp [LSM6.new, test_lsm6_addr, LSM6.set_register, hhi, hb, hw] at h
          exact h.symm
        subst hdrv
        refine ⟨[Txn.writeRead LSM6_SA0_HIGH_ADDRESS [registers.WHO_AM_I] [LSM6_WHO_ID + 1]],
          ?_, ?_⟩
        · simp [LSM6.new, test_lsm6_addr, LSM6.set_register, hhi, hb, hw]
        · intro t ht
          simp at ht
          exact ⟨LSM6_SA0_HIGH_ADDRESS, ht⟩
    · have hb := decide_eq_false hid
      cases hlo : b.writeRead LSM6_SA0_LOW_ADDRESS [registers.WHO_AM_I] [LSM6_WHO_ID + 1] with
      | error e => simp [LSM6.new, test_lsm6_addr, hhi, hb, hlo] at h
      | ok resp2 =>
        by_cases hid2 : resp2.head?.getD (LSM6_WHO_ID + 1) % 256 = LSM6_WHO_ID
        · have hb2 := decide_eq_true hid2
          cases hw : b.write LSM6_SA0_LOW_ADDRESS [registers.CTRL3_C, 4] with
          | error e =>
            simp [LSM6.new, test_lsm6_addr, LSM6.set_register, hhi, hb, hlo, hb2, hw] at h
          | ok u =>
            have hdrv : drv = LSM6.mk LSM6_SA0_LOW_ADDRESS := by
              simp [LSM6.new, test_lsm6_addr, LSM6.set_register, hhi, hb, hlo, hb2, hw] at h
              exact h.symm
            subst hdrv
            refine ⟨[Txn.writeRead LSM6_SA0_HIGH_ADDRESS [registers.WHO_AM_I] [LSM6_WHO_ID + 1],
              Txn.writeRead LSM6_SA0_LOW_ADDRESS [registers.WHO_AM_I] [LSM6_WHO_ID + 1]],
              ?_, ?_⟩
            · simp [LSM6.new, test_lsm6_addr, LSM6.set_register, hhi, hb, hlo, hb2, hw]
            · intro t ht
              simp at ht
              rcases ht with h1 | h1
              · exact ⟨LSM6_SA0_HIGH_ADDRESS, h1⟩
              · exact ⟨LSM6_SA0_LOW_ADDRESS, h1⟩
        · have hb2 := decide_eq_false hid2
          simp [LSM6.new, test_lsm6_addr, hhi, hb, hlo, hb2] at h

/-- Witness for C2: on a transport with the device at the high address, the
trace of a successful `new` ends in the `[CTRL3_C, 4]` write to that
address, preceded only by identity probes. -/
theorem claim_c2_witness :
    ∃ probes, (LSM6.new busHighOk).1 =
        probes ++ [Txn.write (LSM6.mk LSM6_SA0_HIGH_ADDRESS).address [registers.CTRL3_C, 4]] ∧
      ∀ t ∈ probes, ∃ a, t = Txn.writeRead a [registers.WHO_AM_I] [LSM6_WHO_ID + 1] :=
  claim_c2 busHighOk (LSM6.mk LSM6_SA0_HIGH_ADDRESS) rfl

/-- C3: when the `STATUS_REG` read returns a byte with bit 0 set,
`read_accel` performs exactly one further transaction — a 6-byte read
starting at `OUTX_L_XL` — and returns the triple assembled little-endian
per axis (high byte shifted left 8, OR-ed with low byte, i.e. each axis is
the `i16` with pattern `256 * hi + lo`). -/
theorem claim_c3 {ε : Type} (b : Bus ε) (self : LSM6) (status vals : List Nat)
    (hs : b.writeRead self.address [registers.STATUS_REG] [0] = Except.ok status)
    (hbit : (status.head?.getD 0 % 256) &&& 1 = 1)
    (hv : b.writeRead self.address [registers.OUTX_L_XL] [0, 0, 0, 0, 0, 0] =
      Except.ok vals)
    (hbytes : ∀ v ∈ vals, v < 256) :
    self.read_accel b =
      ([Txn.writeRead self.address [registers.STATUS_REG] [0],
        Txn.writeRead self.address [registers.OUTX_L_XL] [0, 0, 0, 0, 0, 0]],
       Except.ok (some (toI16 (256 * vals.getD 1 0 + vals.getD 0 0),
         toI16 (256 * vals.getD 3 0 + vals.getD 2 0),
         toI16 (256 * vals.getD 5 0 + vals.getD 4 0)))) := by
  have hasm : ∀ i j : Nat, (byteAt vals i <<< 8) ||| byteAt vals j =
      256 * vals.getD i 0 + vals.getD j 0 := by
    intro i j
    rw [byteAt_eq_getD vals hbytes i, byteAt_eq_getD vals hbytes j]
    exact shiftLeft_or_byte _ _ (getD_lt_256 vals hbytes j)
  simp [LSM6.read_accel, LSM6.read_register, LSM6.incremental_read_measurements,
    hs, hbit, hv, hasm]

/-- Witness for C3: against a transport whose status byte is `0x03` and
whose 6-byte accelerometer read returns `[1, 2, 3, 4, 5, 6]`, `read_accel`
issues the status read then the `OUTX_L_XL` read and returns
`(0x0201, 0x0403, 0x0605)`. -/
theorem claim_c3_witness :
    (LSM6.mk LSM6_SA0_HIGH_ADDRESS).read_accel busMeas =
      ([Txn.writeRead LSM6_SA0_HIGH_ADDRESS [registers.STATUS_REG] [0],
        Txn.writeRead LSM6_SA0_HIGH_ADDRESS [registers.OUTX_L_XL] [0, 0, 0, 0, 0, 0]],
       Except.ok (some ((0x0201 : Int), (0x0403 : Int), (0x0605 : Int)))) := by
  have h := claim_c3 busMeas (LSM6.mk LSM6_SA0_HIGH_ADDRESS) [3] [1, 2, 3, 4, 5, 6]
    rfl rfl rfl (by decide)
  simpa [toI16] using h

/-- C4: when the readiness bit is clear (bit 0 for the accelerometer,
bit 1 for the gyroscope), the read returns `Ok(None)` — a success, not an
error — and its trace is exactly the single `STATUS_REG` read, so no
further transaction is issued. -/
theorem claim_c4 {ε : Type} (b : Bus ε) (self : LSM6) (status : List Nat)
    (hs : b.writeRead self.address [registers.STATUS_REG] [0] = Except.ok status) :
    ((status.head?.getD 0 % 256) &&& 1 ≠ 1 →
      self.read_accel b =
        ([Txn.writeRead self.address [registers.STATUS_REG] [0]], Except.ok none)) ∧
    ((status.head?.getD 0 % 256) &&& 2 ≠ 2 →
      self.read_gyro b =
        ([Txn.writeRead self.address [registers.STATUS_REG] [0]], Except.ok none)) := by
  constructor
  · intro hbit
    rw [Nat.and_one_is_mod] at hbit
    simp [LSM6.read_accel, LSM6.read_register, hs, hbit]
  · intro hbit
    simp [LSM6.read_gyro, LSM6.read_register, hs, hbit]

/-- Witness for C4: against a transport whose status byte is `0`, both
`read_accel` and `read_gyro` return `Ok(None)` after the lone status
read. -/
theorem claim_c4_witness :
    (LSM6.mk LSM6_SA0_HIGH_ADDRESS).read_accel busNotReady =
      ([Txn.writeRead LSM6_SA0_HIGH_ADDRESS [registers.STATUS_REG] [0]],
        Except.ok none) ∧
    (LSM6.mk LSM6_SA0_HIGH_ADDRESS).read_gyro busNotReady =
      ([Txn.writeRead LSM6_SA0_HIGH_ADDRESS [registers.STATUS_REG] [0]],
        Except.ok none) := by
  have h := claim_c4 busNotReady (LSM6.mk LSM6_SA0_HIGH_ADDRESS) [0] rfl
  exact ⟨h.1 (by decide), h.2 (by decide)⟩

/-- C5 counterexample: against a transport whose `CTRL10_C` reads
`0b101`, `set_gyro_axes true false true` does not write the byte
`0b10001101` claimed in the spec: bit 5 or'd with bit 3 or'd with `0b101`
is `0b101101`, not `0b10001101`. -/
theorem claim_c5_counterexample :
    ((LSM6.mk LSM6_SA0_HIGH_ADDRESS).set_gyro_axes busAxes true false true).1 ≠
      [Txn.writeRead LSM6_SA0_HIGH_ADDRESS [registers.CTRL10_C] [0],
       Txn.write LSM6_SA0_HIGH_ADDRESS [registers.CTRL10_C, 0b10001101]] := by
  decide

/-- C5 (amended): `set_gyro_axes true false true` against a device whose
`CTRL10_C` currently reads `0b101` first issues the `CTRL10_C` read and
then a write of `[CTRL10_C, 0b101101]` — bits 5 and 3 set, low three bits
`0b101` preserved. -/
theorem claim_c5_amended {ε : Type} (b : Bus ε) (self : LSM6) (resp : List Nat)
    (hr : b.writeRead self.address [registers.CTRL10_C] [0] = Except.ok resp)
    (hv : resp.head?.getD 0 % 256 = 0b101) :
    (self.set_gyro_axes b true false true).1 =
      [Txn.writeRead self.address [registers.CTRL10_C] [0],
       Txn.write self.address [registers.CTRL10_C, 0b101101]] := by
  simp [LSM6.set_gyro_axes, LSM6.read_register, LSM6.set_register, hr, hv]
  decide

/-- Witness for C5 (amended): against a transport whose `CTRL10_C` reads
`0b101`, `set_gyro_axes true false true` issues the read then the
`[CTRL10_C, 0b101101]` write. -/
theorem claim_c5_witness :
    ((LSM6.mk LSM6_SA0_HIGH_ADDRESS).set_gyro_axes busAxes true false true).1 =
      [Txn.writeRead LSM6_SA0_HIGH_ADDRESS [registers.CTRL10_C] [0],
       Txn.write LSM6_SA0_HIGH_ADDRESS [registers.CTRL10_C, 0b101101]] :=
  claim_c5_amended busAxes (LSM6.mk LSM6_SA0_HIGH_ADDRESS) [0b101] rfl rfl

/-- C6: for every accelerometer mode, `set_accel_mode` issues exactly one
write `[CTRL1_XL, bitcode <<< 4]` (the bitcode in the high nibble, with no
`u8` wrap-around), and in particular the bitcode of
`HighPerformance1660Hz` shifted left 4 is `0x80`. -/
theorem claim_c6 {ε : Type} (b : Bus ε) (self : LSM6) (mode : AccelerometerMode) :
    (self.set_accel_mode b mode).1 =
      [Txn.write self.address [registers.CTRL1_XL, mode.to_bitcode <<< 4]] ∧
    AccelerometerMode.HighPerformance1660Hz.to_bitcode <<< 4 = 0x80 := by
  constructor
  · have hlt : mode.to_bitcode <<< 4 % 256 = mode.to_bitcode <<< 4 := by
      cases mode <;> rfl
    simp [LSM6.set_accel_mode, LSM6.set_register, hlt]
  · rfl

/-- C7: if neither candidate address answers the `WHO_AM_I` probe with
`0x69` and no transaction fails, `new` returns `Ok(None)` — a success, not
an error; while a transport error during either probe is propagated
unchanged as an error, so the two channels are never conflated. -/
theorem claim_c7 (ε : Type) :
    (∀ (b : Bus ε) (resp1 resp2 : List Nat),
      b.writeRead LSM6_SA0_HIGH_ADDRESS [registers.WHO_AM_I] [LSM6_WHO_ID + 1] =
          Except.ok resp1 →
      resp1.head?.getD (LSM6_WHO_ID + 1) % 256 ≠ LSM6_WHO_ID →
      b.writeRead LSM6_SA0_LOW_ADDRESS [registers.WHO_AM_I] [LSM6_WHO_ID + 1] =
          Except.ok resp2 →
      resp2.head?.getD (LSM6_WHO_ID + 1) % 256 ≠ LSM6_WHO_ID →
      (LSM6.new b).2 = Except.ok none) ∧
    (∀ (b : Bus ε) (e : ε),
      b.writeRead LSM6_SA0_HIGH_ADDRESS [registers.WHO_AM_I] [LSM6_WHO_ID + 1] =
          Except.error e →
      (LSM6.new b).2 = Except.error e) ∧
    (∀ (b : Bus ε) (resp1 : List Nat) (e : ε),
      b.writeRead LSM6_SA0_HIGH_ADDRESS [registers.WHO_AM_I] [LSM6_WHO_ID + 1] =
          Except.ok resp1 →
      resp1.head?.getD (LSM6_WHO_ID + 1) % 256 ≠ LSM6_WHO_ID →
      b.writeRead LSM6_SA0_LOW_ADDRESS [registers.WHO_AM_I] [LSM6_WHO_ID + 1] =
          Except.error e →
      (LSM6.new b).2 = Except.error e) := by
  refine ⟨?_, ?_, ?_⟩
  · intro b resp1 resp2 hhi hid1 hlo hid2
    have hb1 := decide_eq_false hid1
    have hb2 := decide_eq_false hid2
    simp [LSM6.new, test_lsm6_addr, hhi, hb1, hlo, hb2]
  · intro b e hhi
    simp [LSM6.new, test_lsm6_addr, hhi]
  · intro b resp1 e hhi hid1 hlo
    have hb1 := decide_eq_false hid1
    simp [LSM6.new, test_lsm6_addr, hhi, hb1, hlo]

/-- Witness for C7: with no device present `new` returns `Ok(None)`; with a
failing high probe it returns `Err 7`; with a mismatching high probe and a
failing low probe it returns `Err 9`. -/
theorem claim_c7_witness :
    (LSM6.new busAbsent).2 = Except.ok none ∧
    (LSM6.new busErrHigh).2 = Except.error 7 ∧
    (LSM6.new busErrLow).2 = Except.error 9 := by
  refine ⟨(claim_c7 Unit).1 busAbsent [0] [0] rfl (by decide) rfl (by decide),
    (claim_c7 Nat).2.1 busErrHigh 7 rfl,
    (claim_c7 Nat).2.2 busErrLow [0] 9 rfl (by decide) rfl⟩

/-- C8: each axis value returned by the 6-byte measurement read is the
signed two's-complement 16-bit interpretation of its little-endian byte
pair: it is negative exactly when the high byte is at least `0x80`, and
its 16-bit pattern (its value modulo `2 ^ 16`) is `256 * hi + lo`. -/
theorem claim_c8 {ε : Type} (b : Bus ε) (self : LSM6) (start_reg : Nat)
    (vals : List Nat)
    (hv : b.writeRead self.address [start_reg] [0, 0, 0, 0, 0, 0] = Except.ok vals)
    (hbytes : ∀ v ∈ vals, v < 256) :
    ∃ x y z, (self.incremental_read_measurements b start_reg).2 =
        Except.ok (x, y, z) ∧
      ((x < 0 ↔ 128 ≤ vals.getD 1 0) ∧ x % 65536 = 256 * vals.getD 1 0 + vals.getD 0 0) ∧
      ((y < 0 ↔ 128 ≤ vals.getD 3 0) ∧ y % 65536 = 256 * vals.getD 3 0 + vals.getD 2 0) ∧
      ((z < 0 ↔ 128 ≤ vals.getD 5 0) ∧ z % 65536 = 256 * vals.getD 5 0 + vals.getD 4 0) := by
  have hb : ∀ i : Nat, byteAt vals i = vals.getD i 0 := byteAt_eq_getD vals hbytes
  refine ⟨toI16 ((byteAt vals 1 <<< 8) ||| byteAt vals 0),
    toI16 ((byteAt vals 3 <<< 8) ||| byteAt vals 2),
    toI16 ((byteAt vals 5 <<< 8) ||| byteAt vals 4), ?_, ?_, ?_, ?_⟩
  · simp [LSM6.incremental_read_measurements, hv]
  all_goals
    rw [hb, hb]
    exact toI16_assemble _ _ (getD_lt_256 vals hbytes _) (getD_lt_256 vals hbytes _)

/-- Witness for C8: for the response `[0x10, 0x90, 1, 2, 3, 4]` the X axis
(high byte `0x90 ≥ 0x80`) is negative with pattern `0x9010`, while Y and Z
are nonnegative with patterns `0x0201` and `0x0403`. -/
theorem claim_c8_witness :
    ∃ x y z, ((LSM6.mk LSM6_SA0_HIGH_ADDRESS).incremental_read_measurements
        busSigned registers.OUTX_L_XL).2 = Except.ok (x, y, z) ∧
      ((x < 0 ↔ 128 ≤ 0x90) ∧ x % 65536 = 256 * 0x90 + 0x10) ∧
      ((y < 0 ↔ 128 ≤ 2) ∧ y % 65536 = 256 * 2 + 1) ∧
      ((z < 0 ↔ 128 ≤ 4) ∧ z % 65536 = 256 * 4 + 3) := by
  have h := claim_c8 busSigned (LSM6.mk LSM6_SA0_HIGH_ADDRESS) registers.OUTX_L_XL
    [0x10, 0x90, 1, 2, 3, 4] rfl (by decide)
  simpa using h

/-- C9: `set_register r v` issues the untransformed write `[r, v]`, and
`read_register r` against a transport that echoes back `v` returns `v`
unchanged. -/
theorem claim_c9 {ε : Type} (b : Bus ε) (self : LSM6) (r v : Nat) (hv : v < 256)
    (hecho : b.writeRead self.address [r] [0] = Except.ok [v]) :
    (self.set_register b r v).1 = [Txn.write self.address [r, v]] ∧
    (self.read_register b r).2 = Except.ok v := by
  refine ⟨rfl, ?_⟩
  simp [LSM6.read_register, hecho, Nat.mod_eq_of_lt hv]

/-- Witness for C9: writing `0x77` to register `5` issues `[5, 0x77]`, and
reading register `5` from the echoing transport returns `0x77`. -/
theorem claim_c9_witness :
    ((LSM6.mk LSM6_SA0_HIGH_ADDRESS).set_register busEcho 5 0x77).1 =
      [Txn.write LSM6_SA0_HIGH_ADDRESS [5, 0x77]] ∧
    ((LSM6.mk LSM6_SA0_HIGH_ADDRESS).read_register busEcho 5).2 =
      Except.ok 0x77 :=
  claim_c9 busEcho (LSM6.mk LSM6_SA0_HIGH_ADDRESS) 5 0x77 (by decide) rfl

/-- C10: if the `WHO_AM_I` probe of the high address fails with a transport
error, `new` returns exactly that error and its whole trace is the single
failed probe: the low address is never probed, no driver is constructed
and no `CTRL3_C` write is issued. -/
theorem claim_c10 {ε : Type} (b : Bus ε) (e : ε)
    (herr : b.writeRead LSM6_SA0_HIGH_ADDRESS [registers.WHO_AM_I] [LSM6_WHO_ID + 1] =
      Except.error e) :
    LSM6.new b =
      ([Txn.writeRead LSM6_SA0_HIGH_ADDRESS [registers.WHO_AM_I] [LSM6_WHO_ID + 1]],
       Except.error e) := by
  simp [LSM6.new, test_lsm6_addr, herr]

/-- Witness for C10: on a transport whose high-address probe fails with
error `7`, `new` is exactly the failed probe transaction and `Err 7`. -/
theorem claim_c10_witness :
    LSM6.new busErrHigh =
      ([Txn.writeRead LSM6_SA0_HIGH_ADDRESS [registers.WHO_AM_I] [LSM6_WHO_ID + 1]],
       Except.error 7) :=
  claim_c10 busErrHigh 7 rfl

end LSM6Driver
